import Mathlib

/-!
Verification of the AmethystFlame grid-trading bot.

Shallow embedding of:
- `src/extreme_market_protection.py` (directional-run detection, ATR baseline,
  emergency protection, hibernation);
- `src/grid_core.py` (pending-order resync, take-profit sizing, order placement,
  grid adjustment);
- `src/grid_strategy_XRP.py` (bot-level ticker handling, sleep state,
  bot-level emergency protection, incremental position/order updates);
- `src/config.py` (constants).

Prices, quantities and times are modelled as rationals (exact arithmetic).
Fallible gateway steps are modelled by explicit outcome parameters.
Python truthiness tests on optional values are modelled explicitly
(`None`/`0.0` are falsy; `datetime` objects are always truthy).
-/

namespace AmethystFlame

/-! ## Constants from `src/config.py` (`Config.__init__`) -/

/-- `config.GRID_SPACING = 0.001` -/
def GRID_SPACING : ℚ := 1/1000

/-- `config.INITIAL_QUANTITY = 3` -/
def INITIAL_QUANTITY : ℚ := 3

/-- `config.POSITION_THRESHOLD = 500` -/
def POSITION_THRESHOLD : ℚ := 500

/-- `config.POSITION_LIMIT = 200` -/
def POSITION_LIMIT : ℚ := 200

/-- `config.ORDER_FIRST_TIME = 10` (seconds) -/
def ORDER_FIRST_TIME : ℚ := 10

/-! ## Protection configuration, `extreme_market_protection.py` `ProtectionConfig` -/

structure ProtectionConfig where
  extreme_threshold : ℚ := 11
  hibernation_hours : ℚ := 24
  atr_recovery_multiplier : ℚ := 3/2
  trend_detection_window : ℕ := 20
  min_trend_duration : ℚ := 3
  emergency_close_timeout : ℚ := 30
deriving DecidableEq

def defaultProtectionConfig : ProtectionConfig := {}

/-! ## Kline bars and directional runs -/

inductive Direction where
  | up
  | down
  | neutral
deriving DecidableEq

/-- One 1-hour kline bar (`KlineData` dataclass); the `direction` and
`change_percent` fields of the dataclass are derived from open/close by
`update_kline_data` and are modelled by `klineDirection`/`changePercent`. -/
structure KlineBar where
  timestamp : ℚ
  open_price : ℚ
  high_price : ℚ
  low_price : ℚ
  close_price : ℚ
  volume : ℚ
deriving DecidableEq

/-- `change_percent = ((close_price - open_price) / open_price) * 100`
(`update_kline_data`, line 183). -/
def changePercent (open_price close_price : ℚ) : ℚ :=
  (close_price - open_price) / open_price * 100

/-- Direction classification of a bar (`update_kline_data`, lines 184-189):
up if change > 0.1, down if change < -0.1, otherwise neutral. -/
def klineDirection (change_percent : ℚ) : Direction :=
  if change_percent > 1/10 then Direction.up
  else if change_percent < -(1/10) then Direction.down
  else Direction.neutral

/-- Consecutive same-direction run state
(fields `consecutive_trend_*` of `ExtremeMarketProtection`). -/
structure TrendState where
  direction : Direction
  start_price : Option ℚ
  start_time : Option ℚ
  count : ℕ
  cumulative : ℚ
deriving DecidableEq

/-- State set by `__init__` / `_reset_consecutive_trend`. -/
def resetTrendState : TrendState :=
  { direction := Direction.neutral, start_price := none, start_time := none,
    count := 0, cumulative := 0 }

/-- `_detect_consecutive_trend` (lines 288-337).  Branches exactly as the
source: continue the run on a same-direction non-neutral bar (the cumulative
move is recomputed from the run start price when that price is truthy, taking
the absolute value for down runs); start a new run on a different non-neutral
direction; reset on a neutral bar. -/
def detectConsecutiveTrend (s : TrendState) (k : KlineBar) : TrendState :=
  let current_direction := klineDirection (changePercent k.open_price k.close_price)
  if current_direction = s.direction ∧ current_direction ≠ Direction.neutral then
    { s with
      count := s.count + 1,
      cumulative :=
        match s.start_price with
        | some sp =>
          if sp ≠ 0 then
            let c := (k.close_price - sp) / sp * 100
            if s.direction = Direction.down then |c| else c
          else s.cumulative
        | none => s.cumulative }
  else if current_direction ≠ Direction.neutral ∧ current_direction ≠ s.direction then
    { direction := current_direction,
      start_price := some k.open_price,
      start_time := some k.timestamp,
      count := 1,
      cumulative := |changePercent k.open_price k.close_price| }
  else
    resetTrendState

/-- Folding a bar sequence through `_detect_consecutive_trend` from the
freshly initialized state. -/
def runBars (bars : List KlineBar) : TrendState :=
  List.foldl detectConsecutiveTrend resetTrendState bars

/-! ## Market state built by `update_kline_data` (lines 222-234) -/

structure MarketState where
  timestamp : ℚ
  price : ℚ
  trend_start_price : ℚ
  trend_start_time : ℚ
  trend_direction : Direction
  trend_magnitude : ℚ
  consecutive_klines : ℕ
  atr_value : ℚ
  is_extreme : Bool
  protection_triggered : Bool
deriving DecidableEq

/-- The `MarketState` constructed at the end of `update_kline_data`:
`is_extreme = abs(cumulative_change_percent) >= extreme_threshold` (line 220),
the trend fields come from the consecutive-run state (with `or`-defaults to
the current price/time when the run start is unset). -/
def klineMarketState (cfg : ProtectionConfig) (ts : TrendState)
    (close_price tstamp atr : ℚ) (protection_active : Bool) : MarketState :=
  { timestamp := tstamp,
    price := close_price,
    trend_start_price := ts.start_price.getD close_price,
    trend_start_time := ts.start_time.getD tstamp,
    trend_direction := ts.direction,
    trend_magnitude := ts.cumulative,
    consecutive_klines := ts.count,
    atr_value := atr,
    is_extreme := decide (cfg.extreme_threshold ≤ |ts.cumulative|),
    protection_triggered := protection_active }

/-! ## ATR computation, `_calculate_atr` (lines 347-383) -/

/-- Persistent ATR bookkeeping of `ExtremeMarketProtection`
(`last_atr_values`, `baseline_atr`). -/
structure AtrState where
  last_atr_values : List ℚ
  baseline_atr : Option ℚ
deriving DecidableEq

/-- The true ranges used by `_calculate_atr`: `|buf[-i] - buf[-i-1]|` for
`i = 1 .. min(len, period+1) - 1`, over the price buffer in chronological
order. -/
def trueRanges (price_buffer : List ℚ) (period : ℕ) : List ℚ :=
  let rev := price_buffer.reverse
  let m := min price_buffer.length (period + 1)
  List.zipWith (fun a b => |a - b|) (rev.take (m - 1)) ((rev.drop 1).take (m - 1))

/-- `_calculate_atr` with `period = 14`: returns `(new_atr_state, atr_value)`.
Early-returns 0 (leaving the bookkeeping untouched) when fewer than
`period + 1` prices are buffered; otherwise averages the true ranges, appends
the result to `last_atr_values` (capped at 50), and captures `baseline_atr`
once at least 20 samples exist and no baseline is set. -/
def calculateAtr (a : AtrState) (price_buffer : List ℚ) : AtrState × ℚ :=
  let period : ℕ := 14
  if price_buffer.length < period + 1 then (a, 0)
  else
    let trs := trueRanges price_buffer period
    if trs.length = 0 then (a, 0)
    else
      let atr := trs.sum / trs.length
      let appended := a.last_atr_values ++ [atr]
      let vals := if appended.length > 50 then appended.drop 1 else appended
      let baseline :=
        if a.baseline_atr = none ∧ vals.length ≥ 20 then some (vals.sum / vals.length)
        else a.baseline_atr
      ({ last_atr_values := vals, baseline_atr := baseline }, atr)

/-! ## Protection state and hibernation, `extreme_market_protection.py` -/

/-- Protection-relevant persistent fields of `ExtremeMarketProtection`.
Times are in hours.  `baseline_atr` is optional (`None` in Python). -/
structure ProtState where
  protection_active : Bool
  hibernation_start_time : Option ℚ
  baseline_atr : Option ℚ
deriving DecidableEq

/-- `_is_atr_recovered` (lines 747-763): `not self.baseline_atr` is a Python
truthiness test, false for both `None` and `0.0`; a non-positive current ATR
also fails; otherwise current ATR must be within
`baseline * atr_recovery_multiplier`. -/
def isAtrRecovered (cfg : ProtectionConfig) (baseline_atr : Option ℚ)
    (current_atr : ℚ) : Bool :=
  match baseline_atr with
  | none => false
  | some b =>
    if b = 0 then false
    else if current_atr ≤ 0 then false
    else decide (current_atr ≤ b * cfg.atr_recovery_multiplier)

structure HibernationCheckResult where
  ended : Bool
  state : ProtState
deriving DecidableEq

/-- `_check_hibernation_end` (lines 701-745).  `now` is the current time in
hours (`datetime.now()`); elapsed hours are `now - start`.  Returns whether
hibernation ended together with the (possibly unchanged) protection state. -/
def checkHibernationEnd (cfg : ProtectionConfig) (s : ProtState)
    (now current_atr : ℚ) : HibernationCheckResult :=
  match s.hibernation_start_time with
  | none => { ended := false, state := s }
  | some start =>
    let hibernation_hours := now - start
    if hibernation_hours < cfg.hibernation_hours then { ended := false, state := s }
    else if isAtrRecovered cfg s.baseline_atr current_atr then
      { ended := true,
        state := { s with protection_active := false, hibernation_start_time := none } }
    else { ended := false, state := s }

structure EmergencyResult where
  triggered : Bool
  state : ProtState
  state_saved : Bool
deriving DecidableEq

/-- `_trigger_emergency_protection` (lines 472-518), with the outcomes of
`_cancel_all_orders` and `_emergency_close_all_positions` passed in as
booleans.  Only when both succeed is `protection_active` set, the hibernation
start stamped (`now`, in hours) and `_save_state` called. -/
def triggerEmergencyProtection (s : ProtState) (now : ℚ)
    (cancel_success close_success : Bool) : EmergencyResult :=
  if cancel_success && close_success then
    { triggered := true,
      state := { s with protection_active := true, hibernation_start_time := some now },
      state_saved := true }
  else { triggered := false, state := s, state_saved := false }

/-- The trigger condition of `check_extreme_protection` (lines 448-468) when
protection is not yet active: the market is extreme and either the run has at
least one bar (kline mode), or the real-time trend has lasted at least
`min_trend_duration` minutes (the `trend_start_time` truthiness test is always
true for a `datetime`, so it is not modelled as optional here; kline-built
market states always default it). -/
def extremeTriggerCondition (cfg : ProtectionConfig) (ms : MarketState) : Bool :=
  ms.is_extreme &&
    (decide (0 < ms.consecutive_klines) ||
     decide (cfg.min_trend_duration ≤ ms.timestamp - ms.trend_start_time))

/-- `check_extreme_protection` (lines 434-470): when protection is active,
delegate to the hibernation-end check; otherwise trigger the emergency
sequence when the extreme condition holds.  Returns the boolean result of the
source function together with the new protection state. -/
def checkExtremeProtection (cfg : ProtectionConfig) (ps : ProtState)
    (ms : MarketState) (now : ℚ) (cancel_success close_success : Bool) :
    Bool × ProtState :=
  if ps.protection_active then
    let r := checkHibernationEnd cfg ps now ms.atr_value
    (r.ended, r.state)
  else if extremeTriggerCondition cfg ms then
    let r := triggerEmergencyProtection ps now cancel_success close_success
    (r.triggered, r.state)
  else (false, ps)

/-! ## Open orders and pending-order counters, `grid_core.py` -/

inductive OrderSide where
  | buy
  | sell
deriving DecidableEq

/-- The `positionSide` tag carried in an exchange order's `info`
(`'LONG'`, `'SHORT'`, or the default `'BOTH'`). -/
inductive PositionSideTag where
  | LONG
  | SHORT
  | BOTH
deriving DecidableEq

/-- An entry of the gateway's open-order list, with the fields consulted by
`check_orders_status` and `cancel_orders_for_side`. -/
structure OpenOrder where
  origQty : ℚ
  side : OrderSide
  positionSide : PositionSideTag
  reduceOnly : Bool
deriving DecidableEq

/-- The four pending-order counters. -/
structure Counters where
  buy_long : ℚ
  sell_long : ℚ
  buy_short : ℚ
  sell_short : ℚ
deriving DecidableEq

/-- The classification loop of `check_orders_status` (lines 70-84): each open
order's absolute original quantity is added to the bucket selected by its
`side` and `positionSide`; the `reduceOnly` flag is not consulted there. -/
def classifyStep (c : Counters) (o : OpenOrder) : Counters :=
  let q := |o.origQty|
  if o.side = OrderSide.buy ∧ o.positionSide = PositionSideTag.LONG then
    { c with buy_long := c.buy_long + q }
  else if o.side = OrderSide.sell ∧ o.positionSide = PositionSideTag.LONG then
    { c with sell_long := c.sell_long + q }
  else if o.side = OrderSide.buy ∧ o.positionSide = PositionSideTag.SHORT then
    { c with buy_short := c.buy_short + q }
  else if o.side = OrderSide.sell ∧ o.positionSide = PositionSideTag.SHORT then
    { c with sell_short := c.sell_short + q }
  else c

/-- The counters derived from scratch by `check_orders_status`: the loop
starts from locally initialized zero counters. -/
def classifyOrders (orders : List OpenOrder) : Counters :=
  List.foldl classifyStep { buy_long := 0, sell_long := 0, buy_short := 0, sell_short := 0 } orders

/-- Classification following the spec's words (refinement comparison only, not
translated from the source): the data model names the four counters buy-long
(entry), sell-long (take-profit), buy-short (take-profit), sell-short (entry)
and `syncPendingOrders` classifies each order on (side, position-side,
reduce-only flag); so an entry bucket takes only non-reduce-only orders and a
take-profit bucket only reduce-only orders. -/
def specClassifyOrders (orders : List OpenOrder) : Counters :=
  { buy_long := (((orders.filter (fun o =>
      decide (o.side = OrderSide.buy ∧ o.positionSide = PositionSideTag.LONG ∧
        o.reduceOnly = false))).map (fun o => |o.origQty|)).sum),
    sell_long := (((orders.filter (fun o =>
      decide (o.side = OrderSide.sell ∧ o.positionSide = PositionSideTag.LONG ∧
        o.reduceOnly = true))).map (fun o => |o.origQty|)).sum),
    buy_short := (((orders.filter (fun o =>
      decide (o.side = OrderSide.buy ∧ o.positionSide = PositionSideTag.SHORT ∧
        o.reduceOnly = true))).map (fun o => |o.origQty|)).sum),
    sell_short := (((orders.filter (fun o =>
      decide (o.side = OrderSide.sell ∧ o.positionSide = PositionSideTag.SHORT ∧
        o.reduceOnly = false))).map (fun o => |o.origQty|)).sum) }

/-! ## Grid engine state, `grid_core.py` `GridCore` -/

/-- Per-side tag used by the engine API (`'long'` / `'short'` strings). -/
inductive PosSide where
  | long
  | short
deriving DecidableEq

/-- The mutable fields of `GridCore` used by the embedded operations.
Times are in seconds (`time.time()`). -/
structure GridState where
  long_position : ℚ := 0
  short_position : ℚ := 0
  buy_long_orders : ℚ := 0
  sell_long_orders : ℚ := 0
  sell_short_orders : ℚ := 0
  buy_short_orders : ℚ := 0
  long_initial_quantity : ℚ := 0
  short_initial_quantity : ℚ := 0
  latest_price : ℚ := 0
  best_bid_price : ℚ := 0
  best_ask_price : ℚ := 0
  mid_price_long : ℚ := 0
  lower_price_long : ℚ := 0
  upper_price_long : ℚ := 0
  mid_price_short : ℚ := 0
  lower_price_short : ℚ := 0
  upper_price_short : ℚ := 0
  long_grid_spacing : ℚ := GRID_SPACING
  short_grid_spacing : ℚ := GRID_SPACING
  long_profit_spacing : ℚ := GRID_SPACING
  short_profit_spacing : ℚ := GRID_SPACING
  last_long_order_time : ℚ := 0
  last_short_order_time : ℚ := 0
deriving DecidableEq

/-- `check_orders_status` as a state update: the four counters are fully
replaced by the classification of the gateway's open-order list. -/
def check_orders_status (s : GridState) (orders : List OpenOrder) : GridState :=
  let c := classifyOrders orders
  { s with buy_long_orders := c.buy_long, sell_long_orders := c.sell_long,
           buy_short_orders := c.buy_short, sell_short_orders := c.sell_short }

/-- An order submitted to the gateway (`place_order` /
`place_take_profit_order` call).  Cancellation requests are not placements and
are not recorded here. -/
structure PlacedOrder where
  side : OrderSide
  price : ℚ
  quantity : ℚ
  reduceOnly : Bool
  positionSide : PosSide
deriving DecidableEq

/-- `ExchangeInterface.place_take_profit_order` submits a reduce-only order:
sell for a long position, buy for a short position. -/
def place_take_profit_order (side : PosSide) (price quantity : ℚ) : PlacedOrder :=
  { side := match side with | PosSide.long => OrderSide.sell | PosSide.short => OrderSide.buy,
    price := price, quantity := quantity, reduceOnly := true, positionSide := side }

/-- `get_take_profit_quantity` (lines 138-151): writes the sized quantity into
`long_initial_quantity` / `short_initial_quantity`; doubles the base quantity
once the position exceeds `POSITION_LIMIT`, always capped by the position. -/
def get_take_profit_quantity (s : GridState) (position : ℚ) (position_side : PosSide) :
    GridState :=
  match position_side with
  | PosSide.long =>
    { s with long_initial_quantity :=
        if position > POSITION_LIMIT then min position (INITIAL_QUANTITY * 2)
        else min position INITIAL_QUANTITY }
  | PosSide.short =>
    { s with short_initial_quantity :=
        if position > POSITION_LIMIT then min position (INITIAL_QUANTITY * 2)
        else min position INITIAL_QUANTITY }

/-- `update_mid_price` (lines 125-136). -/
def update_mid_price (s : GridState) (position_side : PosSide) (latest_price : ℚ) :
    GridState :=
  match position_side with
  | PosSide.long =>
    { s with mid_price_long := latest_price,
             lower_price_long := latest_price * (1 - s.long_grid_spacing),
             upper_price_long := latest_price * (1 + s.long_profit_spacing) }
  | PosSide.short =>
    { s with mid_price_short := latest_price,
             lower_price_short := latest_price * (1 - s.short_profit_spacing),
             upper_price_short := latest_price * (1 + s.short_grid_spacing) }

/-- `place_long_orders` (lines 191-219): size the take-profit quantity, then
in conservative mode (position above `POSITION_THRESHOLD`) place at most one
skewed take-profit order; otherwise recompute grid bounds, cancel the side's
orders (cancellations are not placements) and place one take-profit order and
one replenishment order. -/
def place_long_orders (s : GridState) (latest_price : ℚ) : GridState × List PlacedOrder :=
  let s1 := get_take_profit_quantity s s.long_position PosSide.long
  if s1.long_position > 0 then
    if s1.long_position > POSITION_THRESHOLD then
      if s1.sell_long_orders ≤ 0 then
        let skew := s1.long_position / max s1.short_position 1 / 100 + 1
        let profit_price := s1.latest_price * skew
        (s1, [place_take_profit_order PosSide.long profit_price s1.long_initial_quantity])
      else (s1, [])
    else
      let s2 := update_mid_price s1 PosSide.long latest_price
      (s2, [place_take_profit_order PosSide.long s2.upper_price_long s2.long_initial_quantity,
            { side := OrderSide.buy, price := s2.lower_price_long,
              quantity := s2.long_initial_quantity, reduceOnly := false,
              positionSide := PosSide.long }])
  else (s1, [])

/-- `place_short_orders` (lines 221-249), mirror of the long side. -/
def place_short_orders (s : GridState) (latest_price : ℚ) : GridState × List PlacedOrder :=
  let s1 := get_take_profit_quantity s s.short_position PosSide.short
  if s1.short_position > 0 then
    if s1.short_position > POSITION_THRESHOLD then
      if s1.buy_short_orders ≤ 0 then
        let skew := s1.short_position / max s1.long_position 1 / 100 + 1
        let profit_price := s1.latest_price / skew
        (s1, [place_take_profit_order PosSide.short profit_price s1.short_initial_quantity])
      else (s1, [])
    else
      let s2 := update_mid_price s1 PosSide.short latest_price
      (s2, [place_take_profit_order PosSide.short s2.lower_price_short s2.short_initial_quantity,
            { side := OrderSide.sell, price := s2.upper_price_short,
              quantity := s2.short_initial_quantity, reduceOnly := false,
              positionSide := PosSide.short }])
  else (s1, [])

/-- `check_and_reduce_positions` (lines 251-277): when both sides exceed
`POSITION_THRESHOLD`, place two aggressively priced reduce-only close orders. -/
def check_and_reduce_positions (s : GridState) : List PlacedOrder :=
  if s.long_position > POSITION_THRESHOLD ∧ s.short_position > POSITION_THRESHOLD then
    let reduce_quantity := min s.long_position s.short_position * (1/2)
    if reduce_quantity > 0 then
      [{ side := OrderSide.sell, price := s.latest_price * (999/1000),
         quantity := reduce_quantity, reduceOnly := true, positionSide := PosSide.long },
       { side := OrderSide.buy, price := s.latest_price * (1001/1000),
         quantity := reduce_quantity, reduceOnly := true, positionSide := PosSide.short }]
    else []
  else []

/-- `initialize_long_orders` (lines 153-170): gated by `ORDER_FIRST_TIME`
since the last long placement; otherwise cancels the side and places one
non-reduce-only entry order at the best bid. -/
def initialize_long_orders (s : GridState) (now : ℚ) : GridState × List PlacedOrder :=
  if now - s.last_long_order_time < ORDER_FIRST_TIME then (s, [])
  else
    ({ s with last_long_order_time := now },
     [{ side := OrderSide.buy, price := s.best_bid_price, quantity := INITIAL_QUANTITY,
        reduceOnly := false, positionSide := PosSide.long }])

/-- `initialize_short_orders` (lines 172-189), mirror of the long side. -/
def initialize_short_orders (s : GridState) (now : ℚ) : GridState × List PlacedOrder :=
  if now - s.last_short_order_time < ORDER_FIRST_TIME then (s, [])
  else
    ({ s with last_short_order_time := now },
     [{ side := OrderSide.sell, price := s.best_ask_price, quantity := INITIAL_QUANTITY,
        reduceOnly := false, positionSide := PosSide.short }])

/-- The long-side counter sanity test of `adjust_grid_strategy` (lines
289-290): `not (0 < buy_long_orders <= long_initial_quantity) or
not (0 < sell_long_orders <= long_initial_quantity)`. -/
def long_orders_invalid (s : GridState) : Bool :=
  !(decide (0 < s.buy_long_orders ∧ s.buy_long_orders ≤ s.long_initial_quantity)) ||
  !(decide (0 < s.sell_long_orders ∧ s.sell_long_orders ≤ s.long_initial_quantity))

/-- The short-side counter sanity test of `adjust_grid_strategy`
(lines 305-306). -/
def short_orders_invalid (s : GridState) : Bool :=
  !(decide (0 < s.sell_short_orders ∧ s.sell_short_orders ≤ s.short_initial_quantity)) ||
  !(decide (0 < s.buy_short_orders ∧ s.buy_short_orders ≤ s.short_initial_quantity))

/-- The long-side block of `adjust_grid_strategy` (lines 284-298):
initialize entries when flat; otherwise, on an inconsistent counter check,
place long orders (with a forced resync first when the position is below
`POSITION_THRESHOLD`; the source then re-tests the *stale* `orders_valid`
flag, which is still true, so placement always follows the resync). -/
def adjust_long_side (s : GridState) (now : ℚ) (gatewayOrders : List OpenOrder) :
    GridState × List PlacedOrder :=
  if s.long_position = 0 then initialize_long_orders s now
  else if long_orders_invalid s then
    if s.long_position < POSITION_THRESHOLD then
      let s2 := check_orders_status s gatewayOrders
      place_long_orders s2 s2.latest_price
    else place_long_orders s s.latest_price
  else (s, [])

/-- The short-side block of `adjust_grid_strategy` (lines 300-314). -/
def adjust_short_side (s : GridState) (now : ℚ) (gatewayOrders : List OpenOrder) :
    GridState × List PlacedOrder :=
  if s.short_position = 0 then initialize_short_orders s now
  else if short_orders_invalid s then
    if s.short_position < POSITION_THRESHOLD then
      let s2 := check_orders_status s gatewayOrders
      place_short_orders s2 s2.latest_price
    else place_short_orders s s.latest_price
  else (s, [])

/-- `adjust_grid_strategy` (lines 279-314): risk valve first, then the long
side, then the short side.  `gatewayOrders` is the open-order list returned
by the gateway when a forced resync runs.  Returns the final state and every
order placed during the pass. -/
def adjust_grid_strategy (s : GridState) (now : ℚ) (gatewayOrders : List OpenOrder) :
    GridState × List PlacedOrder :=
  let risk := check_and_reduce_positions s
  let longResult := adjust_long_side s now gatewayOrders
  let shortResult := adjust_short_side longResult.1 now gatewayOrders
  (shortResult.1, risk ++ longResult.2 ++ shortResult.2)

/-! ## Bot level, `grid_strategy_XRP.py` `GridTradingBot` -/

/-- Bot-level sleep fields plus the grid-core state. Times in seconds. -/
structure BotState where
  is_sleeping : Bool := false
  sleep_start_time : ℚ := 0
  grid : GridState := {}
deriving DecidableEq

/-- The sleep gate at the top of `handle_ticker_update` (lines 224-231):
while sleeping, suppress all trading logic until 24 hours have elapsed; once
they have, clear the sleep state — no volatility condition is consulted.
Returns `(suppressed, new_state)`. -/
def handleTickerSleepGate (b : BotState) (current_time : ℚ) : Bool × BotState :=
  if b.is_sleeping then
    if current_time - b.sleep_start_time < 24 * 3600 then (true, b)
    else (false, { b with is_sleeping := false, sleep_start_time := 0 })
  else (false, b)

/-- Outcome of a fallible gateway call (an exception is caught and logged by
the surrounding `try`/`except`). -/
inductive StepOutcome (α : Type) where
  | ok (value : α)
  | failed
deriving DecidableEq

/-- `GridTradingBot.trigger_emergency_protection` (lines 353-410).  Step 1
(fetch + cancel open orders) and step 2 (fetch positions, place reduce-only
flatten orders) each sit in their own `try`/`except`, so their failures are
logged and swallowed; `placeLongCloseFails` models `place_order` raising while
flattening the long side, which aborts the rest of step 2.  Steps 3 and 4
(sleep flag, sleep timestamp, zeroing all four pending-order counters and both
positions) run afterwards unconditionally.  Returns the new bot state and the
flatten orders submitted. -/
def bot_trigger_emergency_protection (b : BotState) (now : ℚ)
    (_fetchOrdersResult : StepOutcome (List OpenOrder))
    (positionResult : StepOutcome (ℚ × ℚ))
    (placeLongCloseFails : Bool) : BotState × List PlacedOrder :=
  let closeLong (l : ℚ) : List PlacedOrder :=
    [{ side := OrderSide.sell, price := 0, quantity := l, reduceOnly := true,
       positionSide := PosSide.long }]
  let closeShort (sh : ℚ) : List PlacedOrder :=
    [{ side := OrderSide.buy, price := 0, quantity := sh, reduceOnly := true,
       positionSide := PosSide.short }]
  let flattens :=
    match positionResult with
    | StepOutcome.failed => []
    | StepOutcome.ok (l, sh) =>
      if l > 0 then
        if placeLongCloseFails then closeLong l
        else closeLong l ++ (if sh > 0 then closeShort sh else [])
      else if sh > 0 then closeShort sh
      else []
  let zeroedGrid : GridState :=
    { b.grid with buy_long_orders := 0, sell_long_orders := 0,
                  sell_short_orders := 0, buy_short_orders := 0,
                  long_position := 0, short_position := 0 }
  ({ is_sleeping := true, sleep_start_time := now, grid := zeroedGrid }, flattens)

/-- `_update_pending_orders` (lines 461-483): incremental counter updates on
NEW ("add") and CANCELED/EXPIRED ("remove") order events; removals are
clamped at zero. -/
inductive PendingAction where
  | add
  | remove
deriving DecidableEq

def update_pending_orders (s : GridState) (side : OrderSide) (position_side : PosSide)
    (quantity : ℚ) (action : PendingAction) : GridState :=
  match action with
  | PendingAction.add =>
    match side, position_side with
    | OrderSide.buy, PosSide.long => { s with buy_long_orders := s.buy_long_orders + quantity }
    | OrderSide.sell, PosSide.long => { s with sell_long_orders := s.sell_long_orders + quantity }
    | OrderSide.buy, PosSide.short => { s with buy_short_orders := s.buy_short_orders + quantity }
    | OrderSide.sell, PosSide.short => { s with sell_short_orders := s.sell_short_orders + quantity }
  | PendingAction.remove =>
    match side, position_side with
    | OrderSide.buy, PosSide.long =>
      { s with buy_long_orders := max 0 (s.buy_long_orders - quantity) }
    | OrderSide.sell, PosSide.long =>
      { s with sell_long_orders := max 0 (s.sell_long_orders - quantity) }
    | OrderSide.buy, PosSide.short =>
      { s with buy_short_orders := max 0 (s.buy_short_orders - quantity) }
    | OrderSide.sell, PosSide.short =>
      { s with sell_short_orders := max 0 (s.sell_short_orders - quantity) }

/-- `_update_position_and_orders` (lines 485-503): a confirmed fill increases
the opened side's position by the filled quantity and decreases the reduced
side's position clamped at zero, adjusting the matching pending counter
likewise clamped at zero. -/
def update_position_and_orders (s : GridState) (side : OrderSide)
    (position_side : PosSide) (filled_quantity : ℚ) : GridState :=
  match side, position_side with
  | OrderSide.buy, PosSide.long =>
    { s with long_position := s.long_position + filled_quantity,
             buy_long_orders := max 0 (s.buy_long_orders - filled_quantity) }
  | OrderSide.buy, PosSide.short =>
    { s with short_position := max 0 (s.short_position - filled_quantity),
             buy_short_orders := max 0 (s.buy_short_orders - filled_quantity) }
  | OrderSide.sell, PosSide.long =>
    { s with long_position := max 0 (s.long_position - filled_quantity),
             sell_long_orders := max 0 (s.sell_long_orders - filled_quantity) }
  | OrderSide.sell, PosSide.short =>
    { s with short_position := s.short_position + filled_quantity,
             sell_short_orders := max 0 (s.sell_short_orders - filled_quantity) }

/-- The position-sync after a FILLED event and the periodic position sync in
`handle_ticker_update` (lines 240-244): the per-side positions are fully
replaced by the gateway snapshot. -/
def sync_positions (s : GridState) (long_pos short_pos : ℚ) : GridState :=
  { s with long_position := long_pos, short_position := short_pos }

/-- An order-lifecycle or reconciliation event affecting the positions. -/
inductive PositionEvent where
  | fillUpdate (side : OrderSide) (position_side : PosSide) (filled : ℚ)
  | reconcile (long_pos short_pos : ℚ)
deriving DecidableEq

def applyPositionEvent (s : GridState) (e : PositionEvent) : GridState :=
  match e with
  | PositionEvent.fillUpdate side ps f => update_position_and_orders s side ps f
  | PositionEvent.reconcile l sh => sync_positions s l sh

def runPositionEvents (s : GridState) (events : List PositionEvent) : GridState :=
  List.foldl applyPositionEvent s events

/-- Well-formedness of an event stream: fills carry non-negative quantities
and gateway snapshots report non-negative positions. -/
def eventOk : PositionEvent → Prop
  | PositionEvent.fillUpdate _ _ f => 0 ≤ f
  | PositionEvent.reconcile l sh => 0 ≤ l ∧ 0 ≤ sh

instance : DecidablePred eventOk := by
  intro e
  cases e with
  | fillUpdate side ps f => exact inferInstanceAs (Decidable (0 ≤ f))
  | reconcile l sh => exact inferInstanceAs (Decidable (0 ≤ l ∧ 0 ≤ sh))

/-! ## Auxiliary definitions for statements and witnesses -/

/-- A concrete bar with the given open and close. -/
def mkBar (o c : ℚ) : KlineBar :=
  { timestamp := 0, open_price := o, high_price := max o c, low_price := min o c,
    close_price := c, volume := 0 }

/-- The total absolute original quantity of the open orders with the given
side and position-side tag: the independent characterization of one resynced
counter bucket. -/
def bucketSum (orders : List OpenOrder) (side : OrderSide) (tag : PositionSideTag) : ℚ :=
  ((orders.filter (fun o => decide (o.side = side ∧ o.positionSide = tag))).map
    (fun o => |o.origQty|)).sum

/-! ## Helper lemmas -/

theorem isAtrRecovered_eq_false (cfg : ProtectionConfig) (b : Option ℚ) (atr : ℚ)
    (h : b = none ∨ atr = 0) : isAtrRecovered cfg b atr = false := by
  rcases h with h | h
  · subst h; rfl
  · subst h
    cases b with
    | none => rfl
    | some v =>
      by_cases hv : v = 0 <;> simp [isAtrRecovered, hv]

theorem detect_result_cases (s : TrendState) (k : KlineBar) :
    detectConsecutiveTrend s k = resetTrendState ∨
      0 < (detectConsecutiveTrend s k).count := by
  simp only [detectConsecutiveTrend]
  by_cases c1 : klineDirection (changePercent k.open_price k.close_price) = s.direction ∧
      klineDirection (changePercent k.open_price k.close_price) ≠ Direction.neutral
  · right
    rw [if_pos c1]
    simp
  · rw [if_neg c1]
    by_cases c2 : klineDirection (changePercent k.open_price k.close_price) ≠
        Direction.neutral ∧
        klineDirection (changePercent k.open_price k.close_price) ≠ s.direction
    · right
      rw [if_pos c2]
      simp
    · left
      rw [if_neg c2]

theorem detect_count_zero_cum_zero (s : TrendState) (k : KlineBar)
    (h : (detectConsecutiveTrend s k).count = 0) :
    (detectConsecutiveTrend s k).cumulative = 0 := by
  rcases detect_result_cases s k with hr | hpos
  · rw [hr]; rfl
  · omega

theorem foldl_detect_count_zero_cum_zero (bars : List KlineBar) :
    ∀ s : TrendState, (s.count = 0 → s.cumulative = 0) →
      ((List.foldl detectConsecutiveTrend s bars).count = 0 →
        (List.foldl detectConsecutiveTrend s bars).cumulative = 0) := by
  induction bars with
  | nil => intro s h; exact h
  | cons b bs ih =>
    intro s _
    simp only [List.foldl_cons]
    exact ih (detectConsecutiveTrend s b) (detect_count_zero_cum_zero s b)

theorem runBars_count_zero_cum_zero (bars : List KlineBar) :
    (runBars bars).count = 0 → (runBars bars).cumulative = 0 :=
  foldl_detect_count_zero_cum_zero bars resetTrendState (fun _ => rfl)

/-! ## C1 -/

/-- Claim C1, counterexample to the claim as stated: the bot-level
hibernation-end evaluation in `handle_ticker_update` clears the hibernating
flag as soon as 24 hours have elapsed, even though the volatility-recovery
condition fails (here no ATR baseline exists, so recovery is false); the
volatility condition is not consulted at all by that evaluation. -/
theorem C1_counterexample :
    (handleTickerSleepGate { is_sleeping := true, sleep_start_time := 0, grid := {} }
      86400).2.is_sleeping = false ∧
    isAtrRecovered defaultProtectionConfig none 0 = false := by
  constructor
  · norm_num [handleTickerSleepGate]
  · rfl

/-- Claim C1, amended: in the protection module, `_check_hibernation_end`
ends hibernation exactly when a hibernation start is stamped, at least
`hibernation_hours` have elapsed, and the current ATR has recovered to within
`baseline * atr_recovery_multiplier`; whenever it does not end, the
protection state (including the active flag and the hibernating state) is
left unchanged, and when it does end the active flag is cleared.  (The
bot-level sleep gate, by contrast, ends on elapsed time alone.) -/
theorem C1_amended : ∀ (cfg : ProtectionConfig) (s : ProtState) (now atr : ℚ),
    ((checkHibernationEnd cfg s now atr).ended = true ↔
      ∃ start, s.hibernation_start_time = some start ∧
        cfg.hibernation_hours ≤ now - start ∧
        isAtrRecovered cfg s.baseline_atr atr = true) ∧
    ((checkHibernationEnd cfg s now atr).ended = false →
      (checkHibernationEnd cfg s now atr).state = s) ∧
    ((checkHibernationEnd cfg s now atr).ended = true →
      (checkHibernationEnd cfg s now atr).state.protection_active = false) := by
  intro cfg s now atr
  cases hstart : s.hibernation_start_time with
  | none =>
    simp only [checkHibernationEnd, hstart]
    simp
  | some start =>
    simp only [checkHibernationEnd, hstart]
    split_ifs with h1 h2
    · constructor
      · simp only [Bool.false_eq_true, false_iff]
        rintro ⟨t, ht, helapsed, _⟩
        injection ht with he
        subst he
        exact absurd helapsed (not_le.mpr h1)
      · simp
    · constructor
      · simp only [true_iff]
        exact ⟨start, rfl, not_lt.mp h1, h2⟩
      · simp
    · constructor
      · simp only [Bool.false_eq_true, false_iff]
        rintro ⟨t, ht, _, hrec⟩
        injection ht with he
        subst he
        exact h2 hrec
      · simp

/-- Witness for C1: with baseline 0.002 and multiplier 1.5, hibernation that
started at hour 0 ends at hour 25 with current ATR 0.003, and at hour 1 the
state is unchanged. -/
theorem C1_amended_witness :
    (checkHibernationEnd defaultProtectionConfig
      { protection_active := true, hibernation_start_time := some 0,
        baseline_atr := some (1/500) } 25 (3/1000)).ended = true ∧
    (checkHibernationEnd defaultProtectionConfig
      { protection_active := true, hibernation_start_time := some 0,
        baseline_atr := some (1/500) } 1 (3/1000)).state =
      { protection_active := true, hibernation_start_time := some 0,
        baseline_atr := some (1/500) } :=
  ⟨(C1_amended defaultProtectionConfig _ 25 (3/1000)).1.mpr
      ⟨0, rfl, by norm_num [defaultProtectionConfig],
       by norm_num [isAtrRecovered, defaultProtectionConfig]⟩,
   (C1_amended defaultProtectionConfig _ 1 (3/1000)).2.1
      (by norm_num [checkHibernationEnd, defaultProtectionConfig])⟩

/-! ## C2 -/

/-- Claim C2: in the emergency sequence `_trigger_emergency_protection`, the
protection-active flag is set, the hibernation start stamped and the state
persisted exactly when both the cancel-all and the flatten-all steps succeed;
on any failure the protection state is unchanged (in particular the flag
stays false, as the sequence only runs while protection is inactive) and
nothing is persisted. -/
theorem C2_emergency_activation (s : ProtState) (now : ℚ)
    (cancel_success close_success : Bool) (hs : s.protection_active = false) :
    ((cancel_success = true ∧ close_success = true) →
      (triggerEmergencyProtection s now cancel_success close_success).state.protection_active
          = true ∧
      (triggerEmergencyProtection s now cancel_success close_success).state.hibernation_start_time
          = some now ∧
      (triggerEmergencyProtection s now cancel_success close_success).state_saved = true) ∧
    (¬(cancel_success = true ∧ close_success = true) →
      (triggerEmergencyProtection s now cancel_success close_success).state = s ∧
      (triggerEmergencyProtection s now cancel_success close_success).state.protection_active
          = false ∧
      (triggerEmergencyProtection s now cancel_success close_success).state.hibernation_start_time
          = s.hibernation_start_time ∧
      (triggerEmergencyProtection s now cancel_success close_success).state_saved = false) := by
  constructor
  · rintro ⟨hc, hk⟩
    subst hc; subst hk
    simp [triggerEmergencyProtection]
  · intro h
    have hfalse : (cancel_success && close_success) = false := by
      cases cancel_success <;> cases close_success <;> simp_all
    simp [triggerEmergencyProtection, hfalse, hs]

/-- Witness for C2: with both steps succeeding the flag is set and the start
stamped; with the flatten step failing the state is unchanged. -/
theorem C2_witness :
    (triggerEmergencyProtection
      { protection_active := false, hibernation_start_time := none, baseline_atr := none }
      5 true true).state.protection_active = true ∧
    (triggerEmergencyProtection
      { protection_active := false, hibernation_start_time := none, baseline_atr := none }
      5 true false).state =
      { protection_active := false, hibernation_start_time := none, baseline_atr := none } :=
  ⟨((C2_emergency_activation _ 5 true true rfl).1 ⟨rfl, rfl⟩).1,
   ((C2_emergency_activation _ 5 true false rfl).2 (by simp)).1⟩

/-! ## C4 -/

/-- Claim C4: processing a single neutral bar (absolute percent change at
most the 0.1 noise threshold) fully resets the directional-run state to
direction neutral, zero bar count and zero cumulative move (and clears the
run start price and time). -/
theorem C4_neutral_bar_resets (s : TrendState) (k : KlineBar)
    (h : |changePercent k.open_price k.close_price| ≤ 1/10) :
    detectConsecutiveTrend s k = resetTrendState := by
  obtain ⟨hlo, hhi⟩ := abs_le.mp h
  have hdir : klineDirection (changePercent k.open_price k.close_price) =
      Direction.neutral := by
    unfold klineDirection
    rw [if_neg (by linarith), if_neg (by linarith)]
  simp only [detectConsecutiveTrend, hdir]
  simp

/-- Witness for C4: an in-progress up run of 5 bars and 7 percent cumulative
move is fully reset by a flat bar. -/
theorem C4_witness :
    detectConsecutiveTrend
      { direction := Direction.up, start_price := some 100, start_time := some 0,
        count := 5, cumulative := 7 } (mkBar 100 100) = resetTrendState :=
  C4_neutral_bar_resets _ _ (by norm_num [changePercent, mkBar])

/-! ## C5 -/

/-- Claim C5: the take-profit sizing returns `min(position, baseQty)` when
the position does not exceed `POSITION_LIMIT` and
`min(position, 2 * baseQty)` when it does; with base 3 and limit 200,
position 199 yields 3 and position 201 yields 6. -/
theorem C5_take_profit_quantity (s : GridState) (p : ℚ) :
    ((p ≤ POSITION_LIMIT →
        (get_take_profit_quantity s p PosSide.long).long_initial_quantity =
          min p INITIAL_QUANTITY ∧
        (get_take_profit_quantity s p PosSide.short).short_initial_quantity =
          min p INITIAL_QUANTITY) ∧
     (POSITION_LIMIT < p →
        (get_take_profit_quantity s p PosSide.long).long_initial_quantity =
          min p (INITIAL_QUANTITY * 2) ∧
        (get_take_profit_quantity s p PosSide.short).short_initial_quantity =
          min p (INITIAL_QUANTITY * 2))) ∧
    ((get_take_profit_quantity s 199 PosSide.long).long_initial_quantity = 3 ∧
     (get_take_profit_quantity s 201 PosSide.long).long_initial_quantity = 6) := by
  refine ⟨⟨fun hp => ?_, fun hp => ?_⟩, ?_, ?_⟩
  · have hnot : ¬ (p > POSITION_LIMIT) := not_lt.mpr hp
    constructor <;> simp [get_take_profit_quantity, hnot]
  · constructor <;> simp [get_take_profit_quantity, hp]
  · have h199 : ¬ ((199 : ℚ) > POSITION_LIMIT) := by norm_num [POSITION_LIMIT]
    simp [get_take_profit_quantity, h199, INITIAL_QUANTITY]
    norm_num [min_def]
  · have h201 : (201 : ℚ) > POSITION_LIMIT := by norm_num [POSITION_LIMIT]
    simp [get_take_profit_quantity, h201, INITIAL_QUANTITY]
    norm_num [min_def]

/-- Witness for C5 at positions 199 and 201. -/
theorem C5_witness :
    (get_take_profit_quantity {} 199 PosSide.long).long_initial_quantity =
      min 199 INITIAL_QUANTITY ∧
    (get_take_profit_quantity {} 201 PosSide.long).long_initial_quantity =
      min 201 (INITIAL_QUANTITY * 2) :=
  ⟨((C5_take_profit_quantity {} 199).1.1 (by norm_num [POSITION_LIMIT])).1,
   ((C5_take_profit_quantity {} 201).1.2 (by norm_num [POSITION_LIMIT])).1⟩

/-! ## C8 -/

theorem applyPositionEvent_nonneg (s : GridState) (e : PositionEvent)
    (hl : 0 ≤ s.long_position) (hs : 0 ≤ s.short_position) (he : eventOk e) :
    0 ≤ (applyPositionEvent s e).long_position ∧
    0 ≤ (applyPositionEvent s e).short_position := by
  cases e with
  | fillUpdate side ps f =>
    have hf : 0 ≤ f := he
    cases side <;> cases ps <;>
      simp only [applyPositionEvent, update_position_and_orders] <;>
      constructor <;>
      first
        | exact le_max_left 0 _
        | exact hl
        | exact hs
        | exact add_nonneg hl hf
        | exact add_nonneg hs hf
  | reconcile l sh =>
    exact ⟨he.1, he.2⟩

/-- Claim C8: per-side positions are never negative: for every sequence of
incremental fill updates with non-negative filled quantities and full
reconciliations against non-negative gateway snapshots, both positions stay
non-negative, and position-decreasing updates are clamped at zero. -/
theorem C8_positions_never_negative (s : GridState) (events : List PositionEvent)
    (hl : 0 ≤ s.long_position) (hs : 0 ≤ s.short_position)
    (he : ∀ e ∈ events, eventOk e) :
    (0 ≤ (runPositionEvents s events).long_position ∧
     0 ≤ (runPositionEvents s events).short_position) ∧
    (∀ f : ℚ,
      (update_position_and_orders s OrderSide.sell PosSide.long f).long_position =
        max 0 (s.long_position - f) ∧
      (update_position_and_orders s OrderSide.buy PosSide.short f).short_position =
        max 0 (s.short_position - f)) := by
  constructor
  · induction events generalizing s with
    | nil => exact ⟨hl, hs⟩
    | cons e es ih =>
      have h1 := applyPositionEvent_nonneg s e hl hs (he e (List.mem_cons_self e es))
      simp only [runPositionEvents, List.foldl_cons]
      exact ih (applyPositionEvent s e) h1.1 h1.2
        (fun x hx => he x (List.mem_cons_of_mem e hx))
  · intro f
    exact ⟨rfl, rfl⟩

/-- Witness for C8 on a concrete event stream containing an opening fill, a
reconciliation and an over-sized closing fill. -/
theorem C8_witness :
    0 ≤ (runPositionEvents {}
      [PositionEvent.fillUpdate OrderSide.buy PosSide.long 3,
       PositionEvent.reconcile 1 2,
       PositionEvent.fillUpdate OrderSide.sell PosSide.long 5]).long_position ∧
    0 ≤ (runPositionEvents {}
      [PositionEvent.fillUpdate OrderSide.buy PosSide.long 3,
       PositionEvent.reconcile 1 2,
       PositionEvent.fillUpdate OrderSide.sell PosSide.long 5]).short_position :=
  (C8_positions_never_negative {} _ (by norm_num) (by norm_num)
    (by intro e he
        simp only [List.mem_cons, List.not_mem_nil, or_false] at he
        rcases he with h | h | h <;> subst h <;> norm_num [eventOk])).1

/-! ## C9 -/

/-- Claim C9 (implicit): the bot-level emergency routine always enters the
24-hour sleep state and zeroes all four pending-order counters and both
positions, for every outcome of the cancellation step, the position fetch and
the flatten placements — the sleep-and-reset steps do not depend on the
success of the preceding gateway calls. -/
theorem C9_bot_emergency_always_resets (b : BotState) (now : ℚ)
    (fetchOrders : StepOutcome (List OpenOrder))
    (positions : StepOutcome (ℚ × ℚ)) (placeLongCloseFails : Bool) :
    (bot_trigger_emergency_protection b now fetchOrders positions
        placeLongCloseFails).1.is_sleeping = true ∧
    (bot_trigger_emergency_protection b now fetchOrders positions
        placeLongCloseFails).1.sleep_start_time = now ∧
    (bot_trigger_emergency_protection b now fetchOrders positions
        placeLongCloseFails).1.grid.buy_long_orders = 0 ∧
    (bot_trigger_emergency_protection b now fetchOrders positions
        placeLongCloseFails).1.grid.sell_long_orders = 0 ∧
    (bot_trigger_emergency_protection b now fetchOrders positions
        placeLongCloseFails).1.grid.sell_short_orders = 0 ∧
    (bot_trigger_emergency_protection b now fetchOrders positions
        placeLongCloseFails).1.grid.buy_short_orders = 0 ∧
    (bot_trigger_emergency_protection b now fetchOrders positions
        placeLongCloseFails).1.grid.long_position = 0 ∧
    (bot_trigger_emergency_protection b now fetchOrders positions
        placeLongCloseFails).1.grid.short_position = 0 :=
  ⟨rfl, rfl, rfl, rfl, rfl, rfl, rfl, rfl⟩

/-! ## C10 -/

/-- Claim C10 (implicit): with no ATR baseline (fewer than 20 samples and no
persisted baseline) or a zero current ATR, the volatility-recovery check is
false for every input, so `_check_hibernation_end` never ends hibernation and
never clears the protection flag; moreover `_calculate_atr` leaves the
baseline unset while fewer than 20 samples have accumulated. -/
theorem C10_recovery_blocked (cfg : ProtectionConfig) (s : ProtState)
    (now atr : ℚ) (b : Option ℚ) (a : AtrState) (price_buffer : List ℚ) :
    isAtrRecovered cfg none atr = false ∧
    isAtrRecovered cfg b 0 = false ∧
    ((s.baseline_atr = none ∨ atr = 0) →
      (checkHibernationEnd cfg s now atr).ended = false ∧
      (checkHibernationEnd cfg s now atr).state = s) ∧
    (a.baseline_atr = none → a.last_atr_values.length < 19 →
      (calculateAtr a price_buffer).1.baseline_atr = none) := by
  refine ⟨rfl, isAtrRecovered_eq_false cfg b 0 (Or.inr rfl), fun h => ?_, fun hb hn => ?_⟩
  · have hrec : isAtrRecovered cfg s.baseline_atr atr = false :=
      isAtrRecovered_eq_false cfg s.baseline_atr atr h
    cases hstart : s.hibernation_start_time with
    | none => simp [checkHibernationEnd, hstart]
    | some start =>
      simp only [checkHibernationEnd, hstart]
      split_ifs with h1 h2
      · exact ⟨rfl, rfl⟩
      · rw [hrec] at h2; exact absurd h2 (by simp)
      · exact ⟨rfl, rfl⟩
  · simp only [calculateAtr]
    split_ifs with h1 h2 h3 h4 h5
    · exact hb
    · exact hb
    · exfalso
      obtain ⟨-, hlen⟩ := h4
      simp only [List.length_drop, List.length_append, List.length_singleton] at hlen
      omega
    · exact hb
    · exfalso
      obtain ⟨-, hlen⟩ := h5
      simp only [List.length_append, List.length_singleton] at hlen
      omega
    · exact hb

/-- Witness for C10: protection stamped hibernating at hour 0 is still
hibernating at hour 100 with positive current ATR because no baseline was
ever established; a fresh ATR state gains no baseline from a short buffer. -/
theorem C10_witness :
    (checkHibernationEnd defaultProtectionConfig
      { protection_active := true, hibernation_start_time := some 0, baseline_atr := none }
      100 5).ended = false ∧
    (checkHibernationEnd defaultProtectionConfig
      { protection_active := true, hibernation_start_time := some 0, baseline_atr := none }
      100 5).state =
      { protection_active := true, hibernation_start_time := some 0, baseline_atr := none } ∧
    (calculateAtr { last_atr_values := [], baseline_atr := none } []).1.baseline_atr = none := by
  have h := C10_recovery_blocked defaultProtectionConfig
    { protection_active := true, hibernation_start_time := some 0, baseline_atr := none }
    100 5 none { last_atr_values := [], baseline_atr := none } []
  exact ⟨(h.2.2.1 (Or.inl rfl)).1, (h.2.2.1 (Or.inl rfl)).2, h.2.2.2 rfl (by norm_num)⟩

/-! ## C6 -/

theorem bucketSum_cons (o : OpenOrder) (os : List OpenOrder) (side : OrderSide)
    (tag : PositionSideTag) :
    bucketSum (o :: os) side tag =
      (if o.side = side ∧ o.positionSide = tag then |o.origQty| else 0) +
        bucketSum os side tag := by
  by_cases h : o.side = side ∧ o.positionSide = tag <;>
    simp [bucketSum, List.filter_cons, h]

theorem foldl_classifyStep_eq (orders : List OpenOrder) : ∀ c : Counters,
    List.foldl classifyStep c orders =
      { buy_long := c.buy_long + bucketSum orders OrderSide.buy PositionSideTag.LONG,
        sell_long := c.sell_long + bucketSum orders OrderSide.sell PositionSideTag.LONG,
        buy_short := c.buy_short + bucketSum orders OrderSide.buy PositionSideTag.SHORT,
        sell_short := c.sell_short + bucketSum orders OrderSide.sell PositionSideTag.SHORT } := by
  induction orders with
  | nil =>
    intro c
    simp [bucketSum]
  | cons o os ih =>
    intro c
    simp only [List.foldl_cons, ih, bucketSum_cons]
    rcases o with ⟨q, oside, otag, oro⟩
    cases oside <;> cases otag <;>
      simp [classifyStep, add_assoc]

/-- Claim C6, counterexample to the claim as stated: the resynced counters do
not agree with a classification that consults the reduce-only flag.  For a
single open reduce-only buy/LONG order of quantity 5, `check_orders_status`
counts 5 into the buy-long bucket, while the spec's (side, position-side,
reduce-only) classification counts 0 there (buy-long is the non-reduce-only
entry bucket). -/
theorem C6_counterexample :
    (check_orders_status {}
        [{ origQty := 5, side := OrderSide.buy, positionSide := PositionSideTag.LONG,
           reduceOnly := true }]).buy_long_orders ≠
      (specClassifyOrders
        [{ origQty := 5, side := OrderSide.buy, positionSide := PositionSideTag.LONG,
           reduceOnly := true }]).buy_long := by
  norm_num [check_orders_status, classifyOrders, classifyStep, specClassifyOrders,
    List.filter]

/-- Claim C6, amended: the full pending-order resync re-derives all four
counters from scratch by classifying each open order on its side and
position-side only (the reduce-only flag is not consulted), and fully
replaces the previous counter values: after a resync the counters equal the
(side, position-side) classification of the gateway's open-order list,
independently of the prior counters, and the resync is idempotent. -/
theorem C6_resync_replaces_counters (s : GridState) (orders : List OpenOrder) :
    ((check_orders_status s orders).buy_long_orders =
        bucketSum orders OrderSide.buy PositionSideTag.LONG ∧
     (check_orders_status s orders).sell_long_orders =
        bucketSum orders OrderSide.sell PositionSideTag.LONG ∧
     (check_orders_status s orders).buy_short_orders =
        bucketSum orders OrderSide.buy PositionSideTag.SHORT ∧
     (check_orders_status s orders).sell_short_orders =
        bucketSum orders OrderSide.sell PositionSideTag.SHORT) ∧
    (∀ s2 : GridState,
      (check_orders_status s2 orders).buy_long_orders =
        (check_orders_status s orders).buy_long_orders ∧
      (check_orders_status s2 orders).sell_long_orders =
        (check_orders_status s orders).sell_long_orders ∧
      (check_orders_status s2 orders).buy_short_orders =
        (check_orders_status s orders).buy_short_orders ∧
      (check_orders_status s2 orders).sell_short_orders =
        (check_orders_status s orders).sell_short_orders) ∧
    check_orders_status (check_orders_status s orders) orders =
      check_orders_status s orders := by
  have hc : classifyOrders orders =
      { buy_long := bucketSum orders OrderSide.buy PositionSideTag.LONG,
        sell_long := bucketSum orders OrderSide.sell PositionSideTag.LONG,
        buy_short := bucketSum orders OrderSide.buy PositionSideTag.SHORT,
        sell_short := bucketSum orders OrderSide.sell PositionSideTag.SHORT } := by
    unfold classifyOrders
    rw [foldl_classifyStep_eq]
    simp
  refine ⟨?_, fun s2 => ⟨rfl, rfl, rfl, rfl⟩, rfl⟩
  simp [check_orders_status, hc]

/-! ## C3 -/

theorem detect_from_reset (k : KlineBar)
    (h : klineDirection (changePercent k.open_price k.close_price) ≠ Direction.neutral) :
    detectConsecutiveTrend resetTrendState k =
      { direction := klineDirection (changePercent k.open_price k.close_price),
        start_price := some k.open_price, start_time := some k.timestamp,
        count := 1, cumulative := |changePercent k.open_price k.close_price| } := by
  simp only [detectConsecutiveTrend]
  rw [if_neg, if_pos]
  · exact ⟨h, h⟩
  · rintro ⟨h1, h2⟩
    exact h2 h1

/-- Claim C3: over every bar sequence processed from the initial run state,
the configured protection trigger fires exactly when the cumulative move
magnitude of the current directional run reaches the extreme threshold
(11.0), and, with both emergency steps succeeding, protection transitions to
active exactly under that same condition; concretely, a run whose cumulative
move is exactly 11.0 triggers and one at 10.99 does not. -/
theorem C3_protection_iff_threshold :
    (∀ (bars : List KlineBar) (close_price tstamp atr : ℚ),
      (extremeTriggerCondition defaultProtectionConfig
          (klineMarketState defaultProtectionConfig (runBars bars) close_price tstamp atr
            false) = true ↔
        11 ≤ |(runBars bars).cumulative|) ∧
      (∀ (ps : ProtState) (now : ℚ), ps.protection_active = false →
        ((checkExtremeProtection defaultProtectionConfig ps
            (klineMarketState defaultProtectionConfig (runBars bars) close_price tstamp atr
              false) now true true).2.protection_active = true ↔
          11 ≤ |(runBars bars).cumulative|))) ∧
    (extremeTriggerCondition defaultProtectionConfig
        (klineMarketState defaultProtectionConfig (runBars [mkBar 100 111]) 111 0 0
          false) = true) ∧
    (extremeTriggerCondition defaultProtectionConfig
        (klineMarketState defaultProtectionConfig (runBars [mkBar 100 (11099/100)])
          (11099/100) 0 0 false) = false) := by
  have hthr : defaultProtectionConfig.extreme_threshold = 11 := rfl
  have hmain : ∀ (bars : List KlineBar) (close_price tstamp atr : ℚ),
      extremeTriggerCondition defaultProtectionConfig
          (klineMarketState defaultProtectionConfig (runBars bars) close_price tstamp atr
            false) = true ↔
        11 ≤ |(runBars bars).cumulative| := by
    intro bars close_price tstamp atr
    simp only [extremeTriggerCondition, klineMarketState, hthr, Bool.and_eq_true,
      Bool.or_eq_true, decide_eq_true_eq]
    constructor
    · rintro ⟨hext, -⟩
      exact hext
    · intro h
      refine ⟨h, Or.inl ?_⟩
      by_contra hc
      have hzero : (runBars bars).count = 0 := by omega
      have := runBars_count_zero_cum_zero bars hzero
      rw [this] at h
      norm_num at h
  refine ⟨fun bars close_price tstamp atr => ⟨hmain bars close_price tstamp atr, ?_⟩, ?_, ?_⟩
  · intro ps now hps
    by_cases h11 : 11 ≤ |(runBars bars).cumulative|
    · have htrig := (hmain bars close_price tstamp atr).mpr h11
      simp [checkExtremeProtection, hps, htrig, triggerEmergencyProtection, h11]
    · have htrig : extremeTriggerCondition defaultProtectionConfig
          (klineMarketState defaultProtectionConfig (runBars bars) close_price tstamp atr
            false) = false := by
        rcases Bool.eq_false_or_eq_true (extremeTriggerCondition defaultProtectionConfig
          (klineMarketState defaultProtectionConfig (runBars bars) close_price tstamp atr
            false)) with ht | hf
        · exact absurd ((hmain bars close_price tstamp atr).mp ht) h11
        · exact hf
      simp [checkExtremeProtection, hps, htrig, h11]
  · rw [hmain [mkBar 100 111] 111 0 0]
    have hrb : runBars [mkBar 100 111] = detectConsecutiveTrend resetTrendState (mkBar 100 111) :=
      rfl
    have hdir : klineDirection (changePercent (mkBar 100 111).open_price
        (mkBar 100 111).close_price) = Direction.up := by
      norm_num [klineDirection, changePercent, mkBar]
    rw [hrb, detect_from_reset (mkBar 100 111) (by rw [hdir]; decide)]
    norm_num [changePercent, mkBar]
  · rcases Bool.eq_false_or_eq_true (extremeTriggerCondition defaultProtectionConfig
        (klineMarketState defaultProtectionConfig (runBars [mkBar 100 (11099/100)])
          (11099/100) 0 0 false)) with ht | hf
    · exfalso
      have h := (hmain [mkBar 100 (11099/100)] (11099/100) 0 0).mp ht
      have hrb : runBars [mkBar 100 (11099/100)] =
          detectConsecutiveTrend resetTrendState (mkBar 100 (11099/100)) := rfl
      have hdir : klineDirection (changePercent (mkBar 100 (11099/100)).open_price
          (mkBar 100 (11099/100)).close_price) = Direction.up := by
        norm_num [klineDirection, changePercent, mkBar]
      rw [hrb, detect_from_reset (mkBar 100 (11099/100)) (by rw [hdir]; decide)] at h
      norm_num [changePercent, mkBar] at h
      rw [abs_of_nonneg (by norm_num : (0:ℚ) ≤ 1099/100)] at h
      norm_num at h
    · exact hf

/-- Witness for C3: a single bar from 100 to 111 (an 11.0 percent run) drives
protection to active through a successful emergency sequence. -/
theorem C3_witness :
    (checkExtremeProtection defaultProtectionConfig
      { protection_active := false, hibernation_start_time := none, baseline_atr := none }
      (klineMarketState defaultProtectionConfig (runBars [mkBar 100 111]) 111 0 0 false)
      0 true true).2.protection_active = true :=
  ((C3_protection_iff_threshold.1 [mkBar 100 111] 111 0 0).2 _ 0 rfl).mpr
    (by
      have hrb : runBars [mkBar 100 111] =
          detectConsecutiveTrend resetTrendState (mkBar 100 111) := rfl
      have hdir : klineDirection (changePercent (mkBar 100 111).open_price
          (mkBar 100 111).close_price) = Direction.up := by
        norm_num [klineDirection, changePercent, mkBar]
      rw [hrb, detect_from_reset (mkBar 100 111) (by rw [hdir]; decide)]
      norm_num [changePercent, mkBar])

/-! ## C7 helper lemmas -/

theorem gtpq_long_position (s : GridState) (p : ℚ) (ps : PosSide) :
    (get_take_profit_quantity s p ps).long_position = s.long_position := by
  cases ps <;> rfl

theorem gtpq_short_position (s : GridState) (p : ℚ) (ps : PosSide) :
    (get_take_profit_quantity s p ps).short_position = s.short_position := by
  cases ps <;> rfl

theorem gtpq_sell_long_orders (s : GridState) (p : ℚ) (ps : PosSide) :
    (get_take_profit_quantity s p ps).sell_long_orders = s.sell_long_orders := by
  cases ps <;> rfl

theorem gtpq_buy_short_orders (s : GridState) (p : ℚ) (ps : PosSide) :
    (get_take_profit_quantity s p ps).buy_short_orders = s.buy_short_orders := by
  cases ps <;> rfl

theorem gtpq_latest_price (s : GridState) (p : ℚ) (ps : PosSide) :
    (get_take_profit_quantity s p ps).latest_price = s.latest_price := by
  cases ps <;> rfl

theorem ump_short_position (s : GridState) (ps : PosSide) (lp : ℚ) :
    (update_mid_price s ps lp).short_position = s.short_position := by
  cases ps <;> rfl

theorem cos_short_position (s : GridState) (gw : List OpenOrder) :
    (check_orders_status s gw).short_position = s.short_position := rfl

theorem ilo_short_position (s : GridState) (now : ℚ) :
    (initialize_long_orders s now).1.short_position = s.short_position := by
  unfold initialize_long_orders
  split_ifs <;> rfl

theorem plo_short_position (s : GridState) (lp : ℚ) :
    (place_long_orders s lp).1.short_position = s.short_position := by
  simp only [place_long_orders]
  split_ifs <;>
    simp [ump_short_position, gtpq_short_position]

theorem initialize_long_orders_posSide (s : GridState) (now : ℚ) :
    ∀ o ∈ (initialize_long_orders s now).2, o.positionSide = PosSide.long := by
  intro o ho
  simp only [initialize_long_orders] at ho
  split_ifs at ho
  · fin_cases ho
  · fin_cases ho
    rfl

theorem initialize_short_orders_posSide (s : GridState) (now : ℚ) :
    ∀ o ∈ (initialize_short_orders s now).2, o.positionSide = PosSide.short := by
  intro o ho
  simp only [initialize_short_orders] at ho
  split_ifs at ho
  · fin_cases ho
  · fin_cases ho
    rfl

theorem place_long_orders_posSide (s : GridState) (lp : ℚ) :
    ∀ o ∈ (place_long_orders s lp).2, o.positionSide = PosSide.long := by
  intro o ho
  simp only [place_long_orders] at ho
  split_ifs at ho <;> fin_cases ho <;> rfl

theorem place_short_orders_posSide (s : GridState) (lp : ℚ) :
    ∀ o ∈ (place_short_orders s lp).2, o.positionSide = PosSide.short := by
  intro o ho
  simp only [place_short_orders] at ho
  split_ifs at ho <;> fin_cases ho <;> rfl

theorem check_and_reduce_reduceOnly (s : GridState) :
    ∀ o ∈ check_and_reduce_positions s, o.reduceOnly = true := by
  intro o ho
  simp only [check_and_reduce_positions] at ho
  split_ifs at ho <;> fin_cases ho <;> rfl

theorem adjust_long_side_posSide (s : GridState) (now : ℚ) (gw : List OpenOrder) :
    ∀ o ∈ (adjust_long_side s now gw).2, o.positionSide = PosSide.long := by
  intro o ho
  simp only [adjust_long_side] at ho
  split_ifs at ho
  · exact initialize_long_orders_posSide s now o ho
  · exact place_long_orders_posSide _ _ o ho
  · exact place_long_orders_posSide _ _ o ho
  · exact absurd ho (List.not_mem_nil o)

theorem adjust_short_side_posSide (s : GridState) (now : ℚ) (gw : List OpenOrder) :
    ∀ o ∈ (adjust_short_side s now gw).2, o.positionSide = PosSide.short := by
  intro o ho
  simp only [adjust_short_side] at ho
  split_ifs at ho
  · exact initialize_short_orders_posSide s now o ho
  · exact place_short_orders_posSide _ _ o ho
  · exact place_short_orders_posSide _ _ o ho
  · exact absurd ho (List.not_mem_nil o)

theorem place_long_orders_conservative (s : GridState) (lp : ℚ)
    (h : POSITION_THRESHOLD < s.long_position) :
    (place_long_orders s lp).2 = [] ∨
      ∃ p q, (place_long_orders s lp).2 =
        [{ side := OrderSide.sell, price := p, quantity := q, reduceOnly := true,
           positionSide := PosSide.long }] := by
  have hpos : (0:ℚ) < s.long_position :=
    lt_trans (by norm_num [POSITION_THRESHOLD]) h
  simp only [place_long_orders, gtpq_long_position, gtpq_sell_long_orders,
    gtpq_latest_price, gtpq_short_position]
  rw [if_pos hpos, if_pos h]
  by_cases hso : s.sell_long_orders ≤ 0
  · rw [if_pos hso]
    exact Or.inr ⟨_, _, rfl⟩
  · rw [if_neg hso]
    exact Or.inl rfl

theorem place_short_orders_conservative (s : GridState) (lp : ℚ)
    (h : POSITION_THRESHOLD < s.short_position) :
    (place_short_orders s lp).2 = [] ∨
      ∃ p q, (place_short_orders s lp).2 =
        [{ side := OrderSide.buy, price := p, quantity := q, reduceOnly := true,
           positionSide := PosSide.short }] := by
  have hpos : (0:ℚ) < s.short_position :=
    lt_trans (by norm_num [POSITION_THRESHOLD]) h
  simp only [place_short_orders, gtpq_short_position, gtpq_buy_short_orders,
    gtpq_latest_price, gtpq_long_position]
  rw [if_pos hpos, if_pos h]
  by_cases hso : s.buy_short_orders ≤ 0
  · rw [if_pos hso]
    exact Or.inr ⟨_, _, rfl⟩
  · rw [if_neg hso]
    exact Or.inl rfl

theorem adjust_long_side_above_threshold (s : GridState) (now : ℚ)
    (gw : List OpenOrder) (h : POSITION_THRESHOLD < s.long_position) :
    (adjust_long_side s now gw).2 = (place_long_orders s s.latest_price).2 ∨
      (adjust_long_side s now gw).2 = [] := by
  have hne : s.long_position ≠ 0 :=
    ne_of_gt (lt_trans (by norm_num [POSITION_THRESHOLD]) h)
  have hnlt : ¬ s.long_position < POSITION_THRESHOLD := not_lt.mpr (le_of_lt h)
  simp only [adjust_long_side]
  rw [if_neg hne]
  by_cases hv : long_orders_invalid s = true
  · rw [if_pos hv, if_neg hnlt]
    exact Or.inl rfl
  · rw [if_neg hv]
    exact Or.inr rfl

theorem adjust_short_side_above_threshold (s : GridState) (now : ℚ)
    (gw : List OpenOrder) (h : POSITION_THRESHOLD < s.short_position) :
    (adjust_short_side s now gw).2 = (place_short_orders s s.latest_price).2 ∨
      (adjust_short_side s now gw).2 = [] := by
  have hne : s.short_position ≠ 0 :=
    ne_of_gt (lt_trans (by norm_num [POSITION_THRESHOLD]) h)
  have hnlt : ¬ s.short_position < POSITION_THRESHOLD := not_lt.mpr (le_of_lt h)
  simp only [adjust_short_side]
  rw [if_neg hne]
  by_cases hv : short_orders_invalid s = true
  · rw [if_pos hv, if_neg hnlt]
    exact Or.inl rfl
  · rw [if_neg hv]
    exact Or.inr rfl

theorem adjust_long_side_short_position (s : GridState) (now : ℚ)
    (gw : List OpenOrder) :
    (adjust_long_side s now gw).1.short_position = s.short_position := by
  simp only [adjust_long_side]
  split_ifs <;>
    simp [ilo_short_position, plo_short_position, cos_short_position]

/-! ## C7 -/

/-- Claim C7: on any adjustment pass, the Grid Engine never places a
replenishment (non-reduce-only) order for a side whose position exceeds
`POSITION_THRESHOLD` (hence non-zero): every order the pass places for that
side is reduce-only, and the side's placement routine in conservative mode
emits at most a single take-profit order. -/
theorem C7_no_replenishment_above_threshold (s : GridState) (now : ℚ)
    (gw : List OpenOrder) :
    (POSITION_THRESHOLD < s.long_position →
      (∀ o ∈ (adjust_grid_strategy s now gw).2,
        o.positionSide = PosSide.long → o.reduceOnly = true) ∧
      ((place_long_orders s s.latest_price).2 = [] ∨
       ∃ p q, (place_long_orders s s.latest_price).2 =
         [{ side := OrderSide.sell, price := p, quantity := q, reduceOnly := true,
            positionSide := PosSide.long }])) ∧
    (POSITION_THRESHOLD < s.short_position →
      (∀ o ∈ (adjust_grid_strategy s now gw).2,
        o.positionSide = PosSide.short → o.reduceOnly = true) ∧
      ((place_short_orders s s.latest_price).2 = [] ∨
       ∃ p q, (place_short_orders s s.latest_price).2 =
         [{ side := OrderSide.buy, price := p, quantity := q, reduceOnly := true,
            positionSide := PosSide.short }])) := by
  constructor
  · intro h
    refine ⟨?_, place_long_orders_conservative s s.latest_price h⟩
    intro o ho hps
    simp only [adjust_grid_strategy] at ho
    rcases List.mem_append.mp ho with ho1 | hsa
    · rcases List.mem_append.mp ho1 with hrisk | hla
      · exact check_and_reduce_reduceOnly s o hrisk
      · rcases adjust_long_side_above_threshold s now gw h with he | he
        · rw [he] at hla
          rcases place_long_orders_conservative s s.latest_price h with hc | ⟨p, q, hc⟩
          · rw [hc] at hla
            exact absurd hla (List.not_mem_nil o)
          · rw [hc] at hla
            rcases List.mem_singleton.mp hla with rfl
            rfl
        · rw [he] at hla
          exact absurd hla (List.not_mem_nil o)
    · have hshort := adjust_short_side_posSide _ now gw o hsa
      rw [hps] at hshort
      exact absurd hshort (by decide)
  · intro h
    refine ⟨?_, place_short_orders_conservative s s.latest_price h⟩
    intro o ho hps
    simp only [adjust_grid_strategy] at ho
    rcases List.mem_append.mp ho with ho1 | hsa
    · rcases List.mem_append.mp ho1 with hrisk | hla
      · exact check_and_reduce_reduceOnly s o hrisk
      · have hlong := adjust_long_side_posSide s now gw o hla
        rw [hps] at hlong
        exact absurd hlong (by decide)
    · have h3 : POSITION_THRESHOLD < (adjust_long_side s now gw).1.short_position := by
        rw [adjust_long_side_short_position]
        exact h
      rcases adjust_short_side_above_threshold _ now gw h3 with he | he
      · rw [he] at hsa
        rcases place_short_orders_conservative _
            (adjust_long_side s now gw).1.latest_price h3 with hc | ⟨p, q, hc⟩
        · rw [hc] at hsa
          exact absurd hsa (List.not_mem_nil o)
        · rw [hc] at hsa
          rcases List.mem_singleton.mp hsa with rfl
          rfl
      · rw [he] at hsa
        exact absurd hsa (List.not_mem_nil o)

/-- Witness for C7: a long position of 600 (above the 500 threshold) on an
otherwise default state. -/
theorem C7_witness :
    (∀ o ∈ (adjust_grid_strategy { long_position := 600, latest_price := 2 } 0 []).2,
      o.positionSide = PosSide.long → o.reduceOnly = true) ∧
    ((place_long_orders { long_position := 600, latest_price := 2 }
        ({ long_position := 600, latest_price := 2 } : GridState).latest_price).2 = [] ∨
     ∃ p q, (place_long_orders { long_position := 600, latest_price := 2 }
        ({ long_position := 600, latest_price := 2 } : GridState).latest_price).2 =
       [{ side := OrderSide.sell, price := p, quantity := q, reduceOnly := true,
          positionSide := PosSide.long }]) :=
  (C7_no_replenishment_above_threshold { long_position := 600, latest_price := 2 } 0 []).1
    (by norm_num [POSITION_THRESHOLD])

end AmethystFlame
